import Mathlib

/-!
Verification development for the Finjo DinarX Open Banking core.

Frontend components (frontend/src/components/IBANValidation.js,
frontend/src/components/Dashboard.js, frontend/src/utils/format.js) are
embedded directly from the JavaScript source.  The backend core (Customer
Context Resolver, Open Finance Client, Account-Dependent Orchestrator,
Aggregation/Dashboard Assembler) is not part of the provided corpus (only its
test logs and documentation are), so those components are modelled from the
design specification, as marked on each definition.
-/

namespace Finjo

/-! ## IBAN validation form component (frontend/src/components/IBANValidation.js) -/

/-- The form data held in the useState hook of IBANValidation.js: exactly the
four fields of the initial state object. -/
structure IbanData where
  accountType : String
  accountId : String
  ibanType : String
  ibanValue : String
  deriving DecidableEq

/-- The initial useState value of the form: empty strings except the
pre-selected ibanType selector value. -/
def initialIbanData : IbanData :=
  { accountType := "", accountId := "", ibanType := "IBAN", ibanValue := "" }

/-- The four form fields the component ever passes to handleInputChange. -/
inductive IbanField
  | accountType
  | accountId
  | ibanType
  | ibanValue
  deriving DecidableEq

/-- Functional update of one field of the form data, as the spread-update in
handleInputChange performs it. -/
def setIbanField (d : IbanData) (f : IbanField) (v : String) : IbanData :=
  match f with
  | .accountType => { d with accountType := v }
  | .accountId => { d with accountId := v }
  | .ibanType => { d with ibanType := v }
  | .ibanValue => { d with ibanValue := v }

/-- The JSON body posted by api.post to the validate-iban endpoint: the fields
of the ibanData object, in key order. -/
def validateIbanRequestBody (d : IbanData) : List (String × String) :=
  [("accountType", d.accountType), ("accountId", d.accountId),
   ("ibanType", d.ibanType), ("ibanValue", d.ibanValue)]

/-- The validate-iban response shape rendered by the component and promised by
the design spec: valid flag and the echoed iban_value. -/
structure IbanValidationResponse where
  valid : Bool
  iban_value : String
  deriving DecidableEq

/-- The React state of the IBANValidation component relevant to validation:
form data, the in-flight flag, the last validation result and the error
message. -/
structure IbanComponentState where
  ibanData : IbanData
  validating : Bool
  validationResult : Option IbanValidationResponse
  error : Option String
  deriving DecidableEq

/-- The component mounts with empty form data, no result and no error. -/
def initialIbanState : IbanComponentState :=
  { ibanData := initialIbanData, validating := false,
    validationResult := none, error := none }

/-- handleInputChange: updates one field of the form data and clears both the
previous validation result and the error message. -/
def handleInputChange (s : IbanComponentState) (f : IbanField) (v : String) :
    IbanComponentState :=
  { s with ibanData := setIbanField s.ibanData f v,
           validationResult := none, error := none }

/-- The toUpperCase call applied by the ibanValue input, modelled
character-wise: ASCII lowercase letters are uppercased and every other
character passes through. -/
def jsToUpperCase (s : String) : String :=
  String.mk (s.data.map Char.toUpper)

/-- The onChange wiring of the inputs: the ibanValue input uppercases the typed
value before calling handleInputChange; every other input passes it through. -/
def inputEvent (s : IbanComponentState) (f : IbanField) (v : String) :
    IbanComponentState :=
  handleInputChange s f (if f = IbanField.ibanValue then jsToUpperCase v else v)

/-- The required-field guard of validateIBAN: true when accountType, accountId
or ibanValue is the empty (JavaScript-falsy) string. -/
def missingRequiredField (d : IbanData) : Bool :=
  d.accountType = "" || d.accountId = "" || d.ibanValue = ""

/-- The outcome of the awaited api.post call, as seen by validateIBAN. -/
inductive SubmitOutcome
  | success (resp : IbanValidationResponse)
  | failure

/-- validateIBAN submit handler.  Returns the new component state together
with a flag recording whether a POST request was issued.  The guard branch
sets the error message and returns without issuing a request; otherwise the
request runs and, on success, the response is stored, while on failure the
error message is set and the result stays cleared; the finally block resets
the in-flight flag. -/
def submitIbanForm (s : IbanComponentState) (o : SubmitOutcome) :
    IbanComponentState × Bool :=
  if missingRequiredField s.ibanData then
    ({ s with error := some "Please fill in all required fields" }, false)
  else
    match o with
    | .success r =>
        ({ s with validating := false, error := none,
                  validationResult := some r }, true)
    | .failure =>
        ({ s with validating := false, validationResult := none,
                  error := some "Failed to validate IBAN" }, true)

/-- The states the component can reach through its event handlers, starting
from the mount state. -/
inductive IbanReachable : IbanComponentState → Prop
  | init : IbanReachable initialIbanState
  | input (s : IbanComponentState) (f : IbanField) (v : String) :
      IbanReachable s → IbanReachable (inputEvent s f v)
  | submit (s : IbanComponentState) (o : SubmitOutcome) :
      IbanReachable s → IbanReachable (submitIbanForm s o).1

/-- In every reachable component state in which a required field is empty, the
stored validation result is already cleared: any edit that can empty a field
clears the result, and a successful validation requires the fields to be
non-empty at submit time. -/
theorem reachable_missing_field_result_cleared (s : IbanComponentState)
    (hs : IbanReachable s) (h : missingRequiredField s.ibanData = true) :
    s.validationResult = none := by
  induction hs with
  | init => rfl
  | input s f v _ _ => rfl
  | submit s o _ ih =>
      unfold submitIbanForm at h ⊢
      by_cases hg : missingRequiredField s.ibanData = true
      · simp [hg] at h ⊢
        exact ih hg
      · simp [Bool.not_eq_true] at hg
        cases o with
        | success r => simp [hg] at h
        | failure => simp [hg]

/-! ## Formatting utilities (frontend/src/utils/format.js) -/

/-- calculatePercentageChange from format.js, with JavaScript numbers modelled
as exact rationals: a zero previous value short-circuits to 0, otherwise the
relative change is computed as a percentage. -/
def calculatePercentageChange (current previous : ℚ) : ℚ :=
  if previous = 0 then 0 else ((current - previous) / previous) * 100

/-! ## validate-iban endpoint (modelled from the spec) -/

/-- Modelled from the spec: the backend POST validate-iban handler
(backend/server.py is absent from the corpus).  Per the external-interface
contract and the validation scenario, the response carries the upstream JoPACC
confirmation outcome in valid and echoes the submitted iban_value unchanged
except for case-normalization to uppercase. -/
def validateIbanEndpoint (body : IbanData) (upstreamConfirms : Bool) :
    IbanValidationResponse :=
  { valid := upstreamConfirms, iban_value := jsToUpperCase body.ibanValue }

/-! ## Customer Context Resolver (modelled from the spec) -/

/-- Modelled from the spec: the source an inbound customer identifier was
resolved from. -/
inductive ContextSource
  | HEADER
  | BODY
  | DEFAULT
  deriving DecidableEq

/-- Modelled from the spec: the customer context resolved once per inbound
request and immutable afterward. -/
structure CustomerContext where
  customerId : String
  source : ContextSource
  deriving DecidableEq

/-- Modelled from the spec: the resolver failure raised when no source yields a
non-empty identifier and no default is configured. -/
inductive ResolveError
  | missingCustomerId
  deriving DecidableEq

/-- Modelled from the spec: the Customer Context Resolver (backend/server.py is
absent from the corpus).  An absent header or body field is the empty string;
the configured default is an injected optional value.  Precedence: a non-empty
body customer_id on a write operation, then a non-empty x-customer-id header,
then the configured default; otherwise MissingCustomerIdError. -/
def resolveCustomerContext (isWrite : Bool) (bodyId headerId : String)
    (defaultId : Option String) : Except ResolveError CustomerContext :=
  if isWrite = true ∧ bodyId ≠ "" then
    .ok { customerId := bodyId, source := .BODY }
  else if headerId ≠ "" then
    .ok { customerId := headerId, source := .HEADER }
  else
    match defaultId with
    | some d => .ok { customerId := d, source := .DEFAULT }
    | none => .error .missingCustomerId

/-! ## Open Finance Client (modelled from the spec) -/

/-- Modelled from the spec: the client error taxonomy for one outbound call. -/
inductive ClientError
  | upstreamUnavailable
  | upstreamFormat
  deriving DecidableEq

/-- Modelled from the spec: the upstream outcome of one outbound call, either a
network failure (a timeout is treated identically) or an HTTP response with a
status code and a raw payload. -/
inductive UpstreamResponse (α : Type)
  | networkFailure
  | http (status : Nat) (body : α)

/-- Modelled from the spec: the Open Finance Client result mapping
(backend/services/jordan_open_finance.py is absent from the corpus).  A 2xx
response is parsed into the normalized model, a 2xx payload the parser rejects
fails with UpstreamFormatError, and any non-2xx response or network failure is
surfaced as UpstreamUnavailableError; no mock or fallback data is substituted
on any failure path. -/
def openFinanceCall {α β : Type} (parse : α → Option β) :
    UpstreamResponse α → Except ClientError β
  | .networkFailure => .error .upstreamUnavailable
  | .http status body =>
      if 200 ≤ status ∧ status < 300 then
        match parse body with
        | some v => .ok v
        | none => .error .upstreamFormat
      else
        .error .upstreamUnavailable

/-- A failing upstream outcome: a network failure or a non-2xx status. -/
def upstreamFailed {α : Type} (resp : UpstreamResponse α) : Prop :=
  resp = .networkFailure ∨
    ∃ s b, resp = .http s b ∧ (s < 200 ∨ 300 ≤ s)

/-- Every failing upstream outcome is mapped to UpstreamUnavailableError by the
client, whatever the parser. -/
theorem openFinanceCall_of_upstreamFailed {α β : Type} (parse : α → Option β)
    (resp : UpstreamResponse α) (h : upstreamFailed resp) :
    openFinanceCall parse resp = .error .upstreamUnavailable := by
  rcases h with h | ⟨s, b, rfl, hs⟩
  · subst h; rfl
  · have hnot : ¬ (200 ≤ s ∧ s < 300) := by omega
    simp [openFinanceCall, hnot]

/-! ## Data model (modelled from the spec) -/

/-- Modelled from the spec: the account status enumeration. -/
inductive AccountStatus
  | ACTIVE
  | SUSPENDED
  | CLOSED
  deriving DecidableEq

/-- Modelled from the spec: an account produced by the Open Finance Client from
the external response, read-only downstream.  Monetary amounts are exact
decimals, modelled as rationals. -/
structure Account where
  accountId : String
  accountName : String
  accountNumber : String
  bankName : String
  bankCode : String
  accountType : String
  currency : String
  balance : ℚ
  availableBalance : ℚ
  status : AccountStatus
  lastUpdated : String
  deriving DecidableEq

/-- Modelled from the spec: a persisted transaction record as consumed by the
assembler; only identity and amount matter to the aggregation layer. -/
structure Transaction where
  id : String
  amount : ℚ
  deriving DecidableEq

/-- Modelled from the spec: the credit-eligibility tiers. -/
inductive EligibilityTier
  | POOR
  | FAIR
  | GOOD
  | EXCELLENT
  deriving DecidableEq

/-- Modelled from the spec: the Offer / LoanEligibility shape derived from an
account plus the external scoring call; transient. -/
structure LoanEligibility where
  accountId : String
  customerId : String
  creditScore : Nat
  eligibility : EligibilityTier
  maxLoanAmount : ℚ
  deriving DecidableEq

/-! ## Account-Dependent Orchestrator (modelled from the spec) -/

/-- Modelled from the spec: the three dependent resources fetched once per
account after the accounts-list call. -/
inductive DependentKind
  | balance
  | offers
  | eligibility
  deriving DecidableEq

/-- Modelled from the spec: the outcome of each dependent call, indexed by the
account identifier the call is issued for. -/
structure DependentOutcomes where
  balanceCall : String → Except ClientError ℚ
  offersCall : String → Except ClientError (List LoanEligibility)
  eligibilityCall : String → Except ClientError LoanEligibility

/-- True exactly on a successful call result. -/
def exceptOk {ε α : Type} : Except ε α → Bool
  | .ok _ => true
  | .error _ => false

/-- Modelled from the spec: an account together with its dependent enrichment;
a failed dependent call leaves that field absent and flags it unavailable
instead of failing the request. -/
structure EnrichedAccount where
  account : Account
  liveBalance : Option ℚ
  balanceUnavailable : Bool
  offers : Option (List LoanEligibility)
  offersUnavailable : Bool
  loanEligibility : Option LoanEligibility
  eligibilityUnavailable : Bool
  deriving DecidableEq

/-- Modelled from the spec: per-account enrichment from the three dependent
call outcomes, degrading gracefully per field. -/
def enrichAccount (dep : DependentOutcomes) (a : Account) : EnrichedAccount :=
  { account := a
  , liveBalance := (dep.balanceCall a.accountId).toOption
  , balanceUnavailable := !exceptOk (dep.balanceCall a.accountId)
  , offers := (dep.offersCall a.accountId).toOption
  , offersUnavailable := !exceptOk (dep.offersCall a.accountId)
  , loanEligibility := (dep.eligibilityCall a.accountId).toOption
  , eligibilityUnavailable := !exceptOk (dep.eligibilityCall a.accountId) }

/-- The number of dependent fields flagged unavailable on one enriched
account. -/
def unavailableFlagCount (e : EnrichedAccount) : Nat :=
  (if e.balanceUnavailable then 1 else 0) +
  (if e.offersUnavailable then 1 else 0) +
  (if e.eligibilityUnavailable then 1 else 0)

/-- The number of the three dependent calls that fail for one account. -/
def failedDependentCount (dep : DependentOutcomes) (a : Account) : Nat :=
  (if exceptOk (dep.balanceCall a.accountId) then 0 else 1) +
  (if exceptOk (dep.offersCall a.accountId) then 0 else 1) +
  (if exceptOk (dep.eligibilityCall a.accountId) then 0 else 1)

/-- The unavailable flags of an enriched account are exactly the failed
dependent calls of the account it was built from. -/
theorem unavailableFlagCount_enrichAccount (dep : DependentOutcomes)
    (a : Account) :
    unavailableFlagCount (enrichAccount dep a) = failedDependentCount dep a := by
  unfold unavailableFlagCount enrichAccount failedDependentCount
  cases hb : exceptOk (dep.balanceCall a.accountId) <;>
    cases ho : exceptOk (dep.offersCall a.accountId) <;>
      cases he : exceptOk (dep.eligibilityCall a.accountId) <;> simp [hb, ho, he]

/-! ## Aggregation/Dashboard Assembler (modelled from the spec) -/

/-- Modelled from the spec: the default page size of the recent-transactions
list of the assembled dashboard. -/
def defaultTransactionPageSize : Nat := 10

/-- Modelled from the spec: the DashboardView derived per request, never
persisted. -/
structure DashboardView where
  hasLinkedAccounts : Bool
  totalBalance : ℚ
  accounts : List EnrichedAccount
  recentTransactions : List Transaction
  totalAccounts : Nat
  deriving DecidableEq

/-- Modelled from the spec: the Aggregation/Dashboard Assembler, a pure
function of this request's orchestrator outputs (no cache, no state from
previous requests): the total balance is recomputed as the exact sum of the
account balances, and the transaction list is truncated to the configured page
size, defaulting to 10. -/
def assembleDashboard (accounts : List EnrichedAccount)
    (txs : List Transaction) (pageSize : Option Nat) : DashboardView :=
  { hasLinkedAccounts := !accounts.isEmpty
  , totalBalance := (accounts.map (fun e => e.account.balance)).sum
  , accounts := accounts
  , recentTransactions := txs.take (pageSize.getD defaultTransactionPageSize)
  , totalAccounts := accounts.length }

/-- The observable outcome of one orchestration run: the request result and
the dependent calls that were issued. -/
structure OrchestrationRun where
  result : Except ClientError DashboardView
  dependentCallsIssued : List (DependentKind × String)

/-- Modelled from the spec: the Account-Dependent Orchestrator.  If the
accounts-list call failed, the request aborts with that fatal error and no
dependent call is issued; otherwise one dependent call per resource is issued
for every account, each account is enriched from its outcomes (a dependent
failure only flags that field unavailable), and the dashboard is assembled. -/
def orchestrate (accountsResult : Except ClientError (List Account))
    (dep : DependentOutcomes) (txs : List Transaction)
    (pageSize : Option Nat) : OrchestrationRun :=
  match accountsResult with
  | .error e => { result := .error e, dependentCallsIssued := [] }
  | .ok accounts =>
      { result :=
          .ok (assembleDashboard (accounts.map (enrichAccount dep)) txs pageSize)
      , dependentCallsIssued :=
          accounts.flatMap (fun a =>
            [(DependentKind.balance, a.accountId),
             (DependentKind.offers, a.accountId),
             (DependentKind.eligibility, a.accountId)]) }

/-! ## Fixtures from the JoPACC sandbox integration report -/

/-- Account 1023 as reported by the JoPACC sandbox for IND_CUST_015. -/
def account1023 : Account :=
  { accountId := "1023", accountName := "Individual Salary Account",
    accountNumber := "1023", bankName := "Bank of JoPACC LTD.",
    bankCode := "CBJO", accountType := "SALARY", currency := "JOD",
    balance := (1500.75 : ℚ), availableBalance := (1500.75 : ℚ),
    status := .CLOSED, lastUpdated := "2025-07-18T10:16:46Z" }

/-- Account 1022 as reported by the JoPACC sandbox for IND_CUST_015. -/
def account1022 : Account :=
  { accountId := "1022", accountName := "Individual Current Account",
    accountNumber := "1022", bankName := "Bank of JoPACC LTD.",
    bankCode := "CBJO", accountType := "CURRENT", currency := "JOD",
    balance := (2500.5 : ℚ), availableBalance := (2500.5 : ℚ),
    status := .SUSPENDED, lastUpdated := "2025-07-18T10:16:46Z" }

/-- Account 1021 as reported by the JoPACC sandbox for IND_CUST_015. -/
def account1021 : Account :=
  { accountId := "1021", accountName := "Individual Savings Account",
    accountNumber := "1021", bankName := "Bank of JoPACC LTD.",
    bankCode := "CBJO", accountType := "SAVINGS", currency := "JOD",
    balance := 0, availableBalance := 0,
    status := .ACTIVE, lastUpdated := "2025-07-18T10:16:46Z" }

/-- Eligibility figures reported for IND_CUST_015 in the test log. -/
def eligibility015 : LoanEligibility :=
  { accountId := "1023", customerId := "IND_CUST_015", creditScore := 550,
    eligibility := .GOOD, maxLoanAmount := (4502.25 : ℚ) }

/-- Dependent outcomes in which every call succeeds. -/
def depAllOk : DependentOutcomes :=
  { balanceCall := fun _ => .ok (1500.75 : ℚ)
  , offersCall := fun _ => .ok [eligibility015]
  , eligibilityCall := fun _ => .ok eligibility015 }

/-- Dependent outcomes in which exactly the loan-eligibility call for account
1022 fails and every other call succeeds. -/
def depOneFailure : DependentOutcomes :=
  { balanceCall := fun _ => .ok (1500.75 : ℚ)
  , offersCall := fun _ => .ok [eligibility015]
  , eligibilityCall := fun i =>
      if i = "1022" then .error .upstreamUnavailable else .ok eligibility015 }

/-! ## Claim theorems -/

/-- C1: every DashboardView an orchestration run produces has totalBalance
equal to the exact sum of the balance field over the accounts array it
contains; the assembler is a pure function of this request's orchestrator
outputs, so the total is recomputed on every request and can never be a cached
value from a previous one. -/
theorem dashboard_totalBalance_is_sum
    (accountsResult : Except ClientError (List Account))
    (dep : DependentOutcomes) (txs : List Transaction) (pageSize : Option Nat)
    (dv : DashboardView)
    (h : (orchestrate accountsResult dep txs pageSize).result = .ok dv) :
    dv.totalBalance = (dv.accounts.map (fun e => e.account.balance)).sum := by
  cases accountsResult with
  | error e => simp [orchestrate] at h
  | ok accounts =>
      simp only [orchestrate, Except.ok.injEq] at h
      subst h
      rfl

/-- Witness for C1: the orchestration run over the three sandbox accounts of
IND_CUST_015 produces a dashboard whose total balance is the sum of its
account balances. -/
theorem dashboard_totalBalance_is_sum_witness :
    (orchestrate (.ok [account1023, account1022, account1021]) depAllOk []
        none).result
      = .ok (assembleDashboard
          ([account1023, account1022, account1021].map (enrichAccount depAllOk))
          [] none) ∧
    (assembleDashboard
        ([account1023, account1022, account1021].map (enrichAccount depAllOk))
        [] none).totalBalance
      = ((assembleDashboard
          ([account1023, account1022, account1021].map (enrichAccount depAllOk))
          [] none).accounts.map (fun e => e.account.balance)).sum :=
  ⟨rfl, dashboard_totalBalance_is_sum (.ok [account1023, account1022, account1021])
    depAllOk [] none _ rfl⟩

/-- C2: the resolver yields exactly one customer context, with the header value
whenever the header is non-empty and the body carries no customer_id, and with
the body value on every write request whose body customer_id is non-empty. -/
theorem resolveCustomerContext_precedence (isWrite : Bool)
    (bodyId headerId : String) (defaultId : Option String) :
    (headerId ≠ "" → bodyId = "" →
      resolveCustomerContext isWrite bodyId headerId defaultId
        = .ok { customerId := headerId, source := .HEADER }) ∧
    (isWrite = true → bodyId ≠ "" →
      resolveCustomerContext isWrite bodyId headerId defaultId
        = .ok { customerId := bodyId, source := .BODY }) := by
  constructor
  · intro hh hb
    subst hb
    simp [resolveCustomerContext, hh]
  · intro hw hb
    simp [resolveCustomerContext, hw, hb]

/-- Witness for C2: a read request with only the header set resolves to the
header value, and a write request carrying both resolves to the body value. -/
theorem resolveCustomerContext_precedence_witness :
    resolveCustomerContext false "" "IND_CUST_015" none
      = .ok { customerId := "IND_CUST_015", source := .HEADER } ∧
    resolveCustomerContext true "TEST_CUST_123" "IND_CUST_015" none
      = .ok { customerId := "TEST_CUST_123", source := .BODY } :=
  ⟨(resolveCustomerContext_precedence false "" "IND_CUST_015" none).1
      (by decide) rfl,
   (resolveCustomerContext_precedence true "TEST_CUST_123" "IND_CUST_015"
      none).2 rfl (by decide)⟩

/-- C3: whatever the parser, every upstream failure of a client call (network
failure or non-2xx status) surfaces as UpstreamUnavailableError, and no data
of any kind is returned in its place. -/
theorem client_failure_yields_unavailable {α β : Type} (parse : α → Option β)
    (resp : UpstreamResponse α) (h : upstreamFailed resp) :
    openFinanceCall parse resp = .error .upstreamUnavailable ∧
    ∀ v : β, openFinanceCall parse resp ≠ .ok v := by
  have hmain := openFinanceCall_of_upstreamFailed parse resp h
  refine ⟨hmain, fun v hv => ?_⟩
  rw [hmain] at hv
  exact Except.noConfusion hv

/-- Witness for C3: a 503 upstream response yields UpstreamUnavailableError
even under a parser that accepts every payload. -/
theorem client_failure_yields_unavailable_witness :
    upstreamFailed (UpstreamResponse.http 503 "Service Unavailable"
        : UpstreamResponse String) ∧
    openFinanceCall (fun s : String => some s)
        (UpstreamResponse.http 503 "Service Unavailable")
      = .error .upstreamUnavailable :=
  ⟨Or.inr ⟨503, "Service Unavailable", rfl, Or.inr (by norm_num)⟩,
   (client_failure_yields_unavailable (fun s : String => some s)
      (UpstreamResponse.http 503 "Service Unavailable")
      (Or.inr ⟨503, "Service Unavailable", rfl, Or.inr (by norm_num)⟩)).1⟩

/-- C4: when the accounts-list call succeeds with N accounts and exactly one
dependent call fails across all accounts and resources, the assembled
dashboard still contains all N accounts, exactly one unavailable flag is set
(on the failed dependent field of its account), and the run as a whole does
not fail. -/
theorem one_dependent_failure_degrades_gracefully (accounts : List Account)
    (dep : DependentOutcomes) (txs : List Transaction) (pageSize : Option Nat)
    (h : (accounts.map (failedDependentCount dep)).sum = 1) :
    ∃ dv, (orchestrate (.ok accounts) dep txs pageSize).result = .ok dv ∧
      dv.accounts.length = accounts.length ∧
      (dv.accounts.map unavailableFlagCount).sum = 1 := by
  refine ⟨assembleDashboard (accounts.map (enrichAccount dep)) txs pageSize,
    rfl, by simp [assembleDashboard], ?_⟩
  have hcomp : unavailableFlagCount ∘ enrichAccount dep
      = failedDependentCount dep :=
    funext (fun a => unavailableFlagCount_enrichAccount dep a)
  calc ((accounts.map (enrichAccount dep)).map unavailableFlagCount).sum
      = (accounts.map (unavailableFlagCount ∘ enrichAccount dep)).sum := by
        rw [List.map_map]
    _ = (accounts.map (failedDependentCount dep)).sum := by rw [hcomp]
    _ = 1 := h

/-- Witness for C4: with the three sandbox accounts and only the eligibility
call for account 1022 failing, the dashboard keeps all 3 accounts with a
single unavailable flag. -/
theorem one_dependent_failure_degrades_gracefully_witness :
    ([account1023, account1022, account1021].map
        (failedDependentCount depOneFailure)).sum = 1 ∧
    ∃ dv, (orchestrate (.ok [account1023, account1022, account1021])
        depOneFailure [] none).result = .ok dv ∧
      dv.accounts.length = 3 ∧
      (dv.accounts.map unavailableFlagCount).sum = 1 :=
  ⟨rfl, one_dependent_failure_degrades_gracefully
    [account1023, account1022, account1021] depOneFailure [] none rfl⟩

/-- C5: when the accounts-list upstream call itself fails, the orchestrator
aborts the whole request with a fatal UpstreamUnavailableError and issues zero
dependent calls. -/
theorem accounts_list_failure_aborts {α : Type}
    (parse : α → Option (List Account)) (accountsResp : UpstreamResponse α)
    (dep : DependentOutcomes) (txs : List Transaction) (pageSize : Option Nat)
    (h : upstreamFailed accountsResp) :
    (orchestrate (openFinanceCall parse accountsResp) dep txs
        pageSize).result = .error .upstreamUnavailable ∧
    (orchestrate (openFinanceCall parse accountsResp) dep txs
        pageSize).dependentCallsIssued = [] := by
  rw [openFinanceCall_of_upstreamFailed parse accountsResp h]
  exact ⟨rfl, rfl⟩

/-- Witness for C5: a network failure on the accounts-list call aborts the run
with no dependent calls. -/
theorem accounts_list_failure_aborts_witness :
    upstreamFailed (UpstreamResponse.networkFailure : UpstreamResponse String) ∧
    (orchestrate
        (openFinanceCall (fun _ : String => some [])
          UpstreamResponse.networkFailure)
        depAllOk [] none).result = .error .upstreamUnavailable ∧
    (orchestrate
        (openFinanceCall (fun _ : String => some [])
          UpstreamResponse.networkFailure)
        depAllOk [] none).dependentCallsIssued = [] :=
  ⟨Or.inl rfl,
   accounts_list_failure_aborts (fun _ : String => some [])
     UpstreamResponse.networkFailure depAllOk [] none (Or.inl rfl)⟩

/-- C6: the scenario validate-iban request whose ibanValue is
JO27CBJO0000000000000000001023 with valid account fields (the upstream JoPACC
confirmation succeeds) yields a response with valid = true whose iban_value
field echoes the submitted value unchanged except for case-normalization to
uppercase; the scenario value being already uppercase, it is echoed
verbatim. -/
theorem iban_validation_scenario (body : IbanData) (upstreamConfirms : Bool)
    (hv : body.ibanValue = "JO27CBJO0000000000000000001023")
    (hup : upstreamConfirms = true) :
    (validateIbanEndpoint body upstreamConfirms).valid = true ∧
    (validateIbanEndpoint body upstreamConfirms).iban_value
      = jsToUpperCase body.ibanValue ∧
    (validateIbanEndpoint body upstreamConfirms).iban_value
      = "JO27CBJO0000000000000000001023" := by
  refine ⟨hup, rfl, ?_⟩
  show jsToUpperCase body.ibanValue = "JO27CBJO0000000000000000001023"
  rw [hv]
  decide

/-- Witness for C6: the concrete scenario request from the spec. -/
theorem iban_validation_scenario_witness :
    (validateIbanEndpoint
        { accountType := "SAVINGS", accountId := "1023", ibanType := "IBAN",
          ibanValue := "JO27CBJO0000000000000000001023" } true).valid = true ∧
    (validateIbanEndpoint
        { accountType := "SAVINGS", accountId := "1023", ibanType := "IBAN",
          ibanValue := "JO27CBJO0000000000000000001023" } true).iban_value
      = "JO27CBJO0000000000000000001023" :=
  ⟨(iban_validation_scenario
      { accountType := "SAVINGS", accountId := "1023", ibanType := "IBAN",
        ibanValue := "JO27CBJO0000000000000000001023" } true rfl rfl).1,
   (iban_validation_scenario
      { accountType := "SAVINGS", accountId := "1023", ibanType := "IBAN",
        ibanValue := "JO27CBJO0000000000000000001023" } true rfl rfl).2.2⟩

/-- C7: the IBAN validation component posts exactly the four fields of its
form state to the validate-iban endpoint; the uidType and uidValue fields of
the documented six-field contract are absent from the body it sends, shown
here at a concrete submission. -/
theorem validateIban_body_lacks_uid_fields :
    (validateIbanRequestBody
        { accountType := "SAVINGS", accountId := "1023", ibanType := "IBAN",
          ibanValue := "JO27CBJO0000000000000000001023" }).map Prod.fst
      = ["accountType", "accountId", "ibanType", "ibanValue"] ∧
    "uidType" ∉ (validateIbanRequestBody
        { accountType := "SAVINGS", accountId := "1023", ibanType := "IBAN",
          ibanValue := "JO27CBJO0000000000000000001023" }).map Prod.fst ∧
    "uidValue" ∉ (validateIbanRequestBody
        { accountType := "SAVINGS", accountId := "1023", ibanType := "IBAN",
          ibanValue := "JO27CBJO0000000000000000001023" }).map Prod.fst := by
  refine ⟨rfl, ?_, ?_⟩ <;> decide

/-- C8: the assembled dashboard's recent-transactions list is the transaction
list truncated to the configured page size, and the default page size is 10. -/
theorem recentTransactions_truncated (accounts : List EnrichedAccount)
    (txs : List Transaction) (pageSize : Option Nat) :
    (assembleDashboard accounts txs pageSize).recentTransactions
      = txs.take (pageSize.getD defaultTransactionPageSize) ∧
    (assembleDashboard accounts txs pageSize).recentTransactions.length
      ≤ pageSize.getD defaultTransactionPageSize ∧
    defaultTransactionPageSize = 10 := by
  refine ⟨rfl, ?_, rfl⟩
  show (txs.take (pageSize.getD defaultTransactionPageSize)).length
    ≤ pageSize.getD defaultTransactionPageSize
  rw [List.length_take]
  exact min_le_left _ _

/-- C9: calculatePercentageChange returns 0 whenever the previous value is 0,
and otherwise returns ((current - previous) / previous) * 100; the division
branch is only taken under a non-zero divisor. -/
theorem calculatePercentageChange_spec (current previous : ℚ) :
    (previous = 0 → calculatePercentageChange current previous = 0) ∧
    (previous ≠ 0 → calculatePercentageChange current previous
      = ((current - previous) / previous) * 100) := by
  constructor <;> intro h <;> simp [calculatePercentageChange, h]

/-- Witness for C9: a zero previous value gives 0, and a 100 to 150 move is a
50 percent change. -/
theorem calculatePercentageChange_spec_witness :
    calculatePercentageChange 5 0 = 0 ∧
    calculatePercentageChange 150 100 = 50 := by
  constructor
  · exact (calculatePercentageChange_spec 5 0).1 rfl
  · rw [(calculatePercentageChange_spec 150 100).2 (by norm_num)]
    norm_num

/-- C10: submitting the IBAN form from any reachable component state in which
accountType, accountId or ibanValue is empty issues no request to the
validate-iban endpoint, sets the error message, and leaves the validation
result cleared (every edit that can empty a field already cleared it). -/
theorem iban_guard_blocks_request (s : IbanComponentState) (o : SubmitOutcome)
    (hs : IbanReachable s) (h : missingRequiredField s.ibanData = true) :
    (submitIbanForm s o).2 = false ∧
    (submitIbanForm s o).1.error = some "Please fill in all required fields" ∧
    (submitIbanForm s o).1.validationResult = none := by
  have hres := reachable_missing_field_result_cleared s hs h
  unfold submitIbanForm
  simp [h, hres]

/-- Witness for C10: submitting the freshly mounted form (all fields empty)
issues no request, shows the required-fields error, and keeps no result. -/
theorem iban_guard_blocks_request_witness :
    missingRequiredField initialIbanState.ibanData = true ∧
    ((submitIbanForm initialIbanState SubmitOutcome.failure).2 = false ∧
     (submitIbanForm initialIbanState SubmitOutcome.failure).1.error
        = some "Please fill in all required fields" ∧
     (submitIbanForm initialIbanState SubmitOutcome.failure).1.validationResult
        = none) :=
  ⟨by decide,
   iban_guard_blocks_request initialIbanState SubmitOutcome.failure
     IbanReachable.init (by decide)⟩

end Finjo
